import Mathlib

/-!
Verification of the clawwatch session-archive subsystem.

The definitions below are a shallow embedding of the session store,
archive index, archiver/restorer and retention sweep implemented in
`server.py` (and its sibling script `scripts/archive-sessions.py`).
Python dictionaries are modelled as association lists, files as
association lists from name to content string, and JSON records as
structures whose `Option` fields model key presence.  The gzip codec and
the transcript-parsing helper `extract_first_user_message` enter the
model as parameters (fields of `Ctx`); no theorem depends on their
behaviour beyond the gzip round-trip property, which appears as an
explicit hypothesis where needed.
-/

/-- Python substring test `pat in s`, over explicit character lists. -/
def subOccurs (pat : List Char) : List Char → Bool
  | [] => pat.isEmpty
  | c :: rest => pat.isPrefixOf (c :: rest) || subOccurs pat rest

/-- Python `pat in s` on strings. -/
def strContains (s pat : String) : Bool := subOccurs pat.data s.data

/-- Python `s.startswith(pat)`. -/
def strStartsWith (s pat : String) : Bool := pat.data.isPrefixOf s.data

/-- Python `s.endswith(pat)`. -/
def strEndsWith (s pat : String) : Bool := pat.data.isSuffixOf s.data

/-- Drop the last `n` characters of a string (used to model `Path.stem`). -/
def strDropRight (s : String) (n : Nat) : String := ⟨s.data.take (s.data.length - n)⟩

/-- Python slice `s[n:]` by characters. -/
def strDrop (s : String) (n : Nat) : String := ⟨s.data.drop n⟩

/-- Python `len(s)` by characters. -/
def strLen (s : String) : Nat := s.data.length

/-- Python `s.lower()` (ASCII model). -/
def strLower (s : String) : String := ⟨s.data.map Char.toLower⟩

/-- Python `s.strip()`: remove whitespace at both ends. -/
def strStrip (s : String) : String :=
  ⟨((s.data.dropWhile Char.isWhitespace).reverse.dropWhile Char.isWhitespace).reverse⟩

/-- Python `s.replace(a, b)` for single-character `a` and `b`. -/
def strReplaceChar (s : String) (a b : Char) : String :=
  ⟨s.data.map (fun c => if c = a then b else c)⟩

/-- Helper for `pySplit`: scan the list, cutting at each leftmost
occurrence of the (non-empty) separator, like Python `str.split(sep)`. -/
def splitAux (sep : List Char) : List Char → List Char → List (List Char)
  | [], acc => [acc.reverse]
  | c :: rest, acc =>
    if sep.isPrefixOf (c :: rest) then
      acc.reverse :: splitAux sep (rest.drop (sep.length - 1)) []
    else
      splitAux sep rest (c :: acc)
termination_by l _ => l.length
decreasing_by
  · simp only [List.length_drop, List.length_cons]; omega
  · simp only [List.length_cons]; omega

/-- Python `s.split(sep)` for a non-empty separator. -/
def pySplit (s sep : String) : List String := (splitAux sep.data s.data []).map String.mk

/-- Python `sep.join(l)`. -/
def strJoin (sep : String) : List String → String
  | [] => ""
  | [s] => s
  | s :: rest => s ++ sep ++ strJoin sep rest

/-- Lookup in a Python-dict model (first binding wins; inserts keep keys unique). -/
def alookup {α : Type} : List (String × α) → String → Option α
  | [], _ => none
  | (k, v) :: rest, key => if k = key then some v else alookup rest key

/-- Python dict assignment `d[key] = v`: replace in place or append. -/
def ainsert {α : Type} : List (String × α) → String → α → List (String × α)
  | [], key, v => [(key, v)]
  | (k, w) :: rest, key, v =>
    if k = key then (key, v) :: rest else (k, w) :: ainsert rest key v

/-- Python `del d[key]` (also models unlinking a file from a directory). -/
def aerase {α : Type} (l : List (String × α)) (key : String) : List (String × α) :=
  l.filter (fun kv => !(kv.1 == key))

/-- Python `a or b` on two optional strings, where absent (None) and the
empty string are falsy. -/
def pyOr (a b : Option String) : Option String :=
  match a with
  | some s => if s = "" then b else some s
  | none => b

/-- Python `d.get(k) or default` / `d.get(k, '') or default` with a plain
string default. -/
def pyOrD (a : Option String) (b : String) : String :=
  match a with
  | some s => if s = "" then b else s
  | none => b

/-- The `origin` sub-object of a session record.  The Python key `from`
is a Lean keyword and is modelled as `fromField`. -/
structure Origin where
  label : Option String := none
  groupName : Option String := none
  fromField : Option String := none
  channelName : Option String := none
  chatTitle : Option String := none
deriving DecidableEq

/-- A raw session record (one value of the `sessions.json` mapping, or one
element of the list handed to `transform_sessions`).  `Option` fields model
the presence of the corresponding JSON key. -/
structure SessionRecord where
  key : Option String := none
  sessionId : Option String := none
  label : Option String := none
  updatedAt : Option Int := none
  model : Option String := none
  channel : Option String := none
  lastChannel : Option String := none
  chatType : Option String := none
  displayName : Option String := none
  origin : Option Origin := none
  node : Option String := none
  hostname : Option String := none
  totalTokens : Option Int := none
  contextTokens : Option Int := none
  abortedLastRun : Option Bool := none
  ageMs : Option Int := none
  sizeBytes : Option Int := none
  sizeFormatted : Option String := none
  task : Option String := none
  restoredAt : Option Int := none
deriving DecidableEq

/-- One row of the archive index, as written by `archive_session`. -/
structure ArchiveEntry where
  key : String
  sessionId : String
  label : String
  archivedAt : Int
  originalSize : Nat
  compressedSize : Nat
  updatedAt : Int
  model : Option String
  channel : Option String
  task : Option String
deriving DecidableEq

/-- The archive index file `archive/archive-index.json`. -/
structure ArchiveIndex where
  sessions : List ArchiveEntry
  totalSize : Nat
deriving DecidableEq

/-- The parts of the filesystem the archiver touches: the transcript files
of `SESSIONS_DIR`, the compressed files of `ARCHIVE_DIR`, the
`sessions.json` catalog (`none` when the file does not exist) and the
archive index. -/
structure FS where
  files : List (String × String)
  archiveFiles : List (String × String)
  catalog : Option (List (String × SessionRecord))
  index : ArchiveIndex
deriving DecidableEq

/-- External dependencies of the archiver: the gzip codec, the
`extract_first_user_message` transcript scanner, and the clock
`int(time.time() * 1000)`. -/
structure Ctx where
  comp : String → String
  decomp : String → String
  extractTask : String → Option String
  now : Int

/-- Sum of `s.get('compressedSize', 0)` over the index rows. -/
def sumCompressed (l : List ArchiveEntry) : Nat :=
  (l.map ArchiveEntry.compressedSize).sum

/-- Test whether a filename matches the glob pattern `*<sid>*.jsonl`
used as the fallback transcript lookup (plain `sid`, no glob
metacharacters). -/
def globMatch (sid n : String) : Bool :=
  strEndsWith n ".jsonl" && strContains (strDropRight n 6) sid

/-- Transcript resolution of `archive_session` lines 856-864: the exact
`<sid>.jsonl` file if it exists, else the first `*<sid>*.jsonl` glob
match. -/
def findTranscript (sid : String) (files : List (String × String)) : Option String :=
  if (alookup files (sid ++ ".jsonl")).isSome then some (sid ++ ".jsonl")
  else ((files.map Prod.fst).filter (globMatch sid)).head?

/-- Embedding of `archive_session` from `server.py` (lines 849-929).
Returns the new filesystem state together with the Python
`(success, error_message)` pair. -/
def archive_session (ctx : Ctx) (session_key : String) (session_data : SessionRecord)
    (fs : FS) : FS × Bool × Option String :=
  match findTranscript (session_data.sessionId.getD session_key) fs.files with
  | none =>
    (fs, false,
      some ("Transcript file not found: " ++ session_data.sessionId.getD session_key ++ ".jsonl"))
  | some jsonlName =>
    let session_id := session_data.sessionId.getD session_key
    let content := (alookup fs.files jsonlName).getD ""
    let archiveName := strDropRight jsonlName 6 ++ ".jsonl.gz"
    let compressed := ctx.comp content
    let entry : ArchiveEntry :=
      { key := session_key
        sessionId := session_id
        label := session_data.label.getD session_key
        archivedAt := ctx.now
        originalSize := strLen content
        compressedSize := strLen compressed
        updatedAt := session_data.updatedAt.getD 0
        model := session_data.model
        channel := pyOr session_data.channel session_data.lastChannel
        task := ctx.extractTask content }
    let newSessions := fs.index.sessions ++ [entry]
    let fs1 : FS :=
      { files := aerase fs.files jsonlName
        archiveFiles := ainsert fs.archiveFiles archiveName compressed
        catalog :=
          match fs.catalog with
          | none => none
          | some cat =>
            if (alookup cat session_key).isSome then some (aerase cat session_key)
            else some cat
        index := { sessions := newSessions, totalSize := sumCompressed newSessions } }
    (fs1, true, none)

/-- Embedding of `restore_session` from `server.py` (lines 932-992). -/
def restore_session (ctx : Ctx) (session_key : String) (fs : FS) : FS × Bool :=
  match fs.index.sessions.find? (fun s => s.key == session_key || s.sessionId == session_key) with
  | none => (fs, false)
  | some info =>
    let session_id := info.sessionId
    let archiveName := session_id ++ ".jsonl.gz"
    match alookup fs.archiveFiles archiveName with
    | none => (fs, false)
    | some compressed =>
      let restored : SessionRecord :=
        { sessionId := some session_id
          label := some info.label
          updatedAt := some info.updatedAt
          model := info.model
          channel := info.channel
          restoredAt := some ctx.now }
      let newSessions := fs.index.sessions.filter (fun s => !(s.key == session_key))
      ({ files := ainsert fs.files (session_id ++ ".jsonl") (ctx.decomp compressed)
         archiveFiles := aerase fs.archiveFiles archiveName
         catalog := some (ainsert (fs.catalog.getD []) info.key restored)
         index := { sessions := newSessions, totalSize := sumCompressed newSessions } }, true)

/-- The `retentionDays` setting: the sentinel string `never` or a number
of days. -/
inductive Retention where
  | never : Retention
  | days (d : Int) : Retention

/-- The retention-candidate test shared by `handle_run_archive` (line
1988) and the script `main` (line 216): `updatedAt` (defaulting to 0)
strictly below `cutoff = now - retentionDays * 86400000` ms. -/
def selectExpired (now d : Int) (r : SessionRecord) : Bool :=
  r.updatedAt.getD 0 < now - d * 86400000

/-- Python truthiness of the `(success, error)` pair that
`archive_session` returns: a 2-tuple is always truthy, whatever it
holds.  `handle_run_archive` line 1989 tests exactly this. -/
def pyTruthyPair (_ : Bool × Option String) : Bool := true

/-- Embedding of `DashboardHandler.handle_run_archive` (lines 1964-1995):
the retention sweep.  Returns the final state and the reported
`archived` count. -/
def handle_run_archive (ctx : Ctx) (retention : Retention) (fs : FS) : FS × Nat :=
  match retention with
  | .never => (fs, 0)
  | .days d =>
    match fs.catalog with
    | none => (fs, 0)
    | some sessions =>
      sessions.foldl
        (fun acc kv =>
          if selectExpired ctx.now d kv.2 then
            let r := archive_session ctx kv.1 kv.2 acc.1
            if pyTruthyPair r.2 then (r.1, acc.2 + 1) else (r.1, acc.2)
          else acc)
        (fs, 0)

/-- The regex `^[a-z0-9]{20,}$` used by the group-label heuristic to
reject hash-like names (applied after `.lower()`). -/
def isOpaqueHash (s : String) : Bool :=
  decide (20 ≤ s.data.length) &&
    s.data.all (fun c => decide ((97 ≤ c.toNat ∧ c.toNat ≤ 122) ∨
      (48 ≤ c.toNat ∧ c.toNat ≤ 57)))

/-- Python `str.title()`: uppercase each alphabetic character that starts
a word, lowercase the others. -/
def titleAux : Bool → List Char → List Char
  | _, [] => []
  | prevAlpha, c :: rest =>
    (if c.isAlpha then (if prevAlpha then c.toLower else c.toUpper) else c) ::
      titleAux c.isAlpha rest

/-- Python `s.title()` on a string. -/
def strTitle (s : String) : String := ⟨titleAux false s.data⟩

/-- Embedding of `format_phone_number` (`server.py` lines 603-621). -/
def format_phone_number (phone : String) : String :=
  if phone = "" then phone
  else
    let hasPlus := strStartsWith phone "+"
    let digits := phone.data.filter Char.isDigit
    if digits.length = 11 ∧ digits.head? = some (Char.ofNat 49) then
      "+1 " ++ String.mk ((digits.drop 1).take 3) ++ " " ++
        String.mk ((digits.drop 4).take 3) ++ " " ++ String.mk (digits.drop 7)
    else if digits.length = 10 then
      "+1 " ++ String.mk (digits.take 3) ++ " " ++
        String.mk ((digits.drop 3).take 3) ++ " " ++ String.mk (digits.drop 6)
    else if hasPlus then "+" ++ String.mk digits else phone

/-- Group-chat arm of the Signal branch of `parse_friendly_session_label`
(lines 522-549). -/
def parse_signal_group (origin : Origin) (displayName : String) : String :=
  let gl0 := pyOrD origin.label (origin.groupName.getD "")
  let fromGroupLabel :=
    if gl0 = "" then none
    else
      let gl := if strContains gl0 " id:" then strStrip ((pySplit gl0 " id:").headD "") else gl0
      if gl ≠ "" ∧ strStartsWith gl "group:" = false then
        if strLen gl < 30 ∧ isOpaqueHash (strLower gl) = false then some ("Signal: " ++ gl)
        else none
      else none
  match fromGroupLabel with
  | some r => r
  | none =>
    if displayName ≠ "" ∧ strStartsWith displayName "signal:g-" = true then
      let groupName := strDrop displayName 9
      if strStartsWith groupName "group-" then "Signal Group Chat"
      else if strLen groupName < 30 then
        "Signal: " ++ strTitle (strReplaceChar groupName (Char.ofNat 45) (Char.ofNat 32))
      else "Signal Group Chat"
    else "Signal Group Chat"

/-- Direct-message arm of the Signal branch of
`parse_friendly_session_label` (lines 551-564). -/
def parse_signal_dm (origin : Origin) : String :=
  let ol := pyOrD origin.label (origin.fromField.getD "")
  if ol ≠ "" then
    if strStartsWith ol "signal:" then
      "Signal: " ++ format_phone_number (strDrop ol 7)
    else if strStartsWith ol "group:" = false then "Signal: " ++ ol
    else "Signal DM"
  else "Signal DM"

/-- Embedding of `parse_friendly_session_label` (`server.py` lines
497-600). -/
def parse_friendly_session_label (session_key : String) (d : SessionRecord) : String :=
  let existing := d.label.getD ""
  if existing ≠ "" ∧ strStartsWith existing "agent:" = false ∧
      strStartsWith existing "signal:" = false then
    existing
  else
    let displayName := d.displayName.getD ""
    let origin := d.origin.getD {}
    let channel := pyOrD d.channel (d.lastChannel.getD "")
    if strContains session_key ":signal:" = true ∨ channel = "signal" then
      let chatType := d.chatType.getD ""
      if strContains session_key "group" = true ∨ chatType = "group" then
        parse_signal_group origin displayName
      else parse_signal_dm origin
    else if strContains session_key ":discord:" = true ∨ channel = "discord" then
      let ol := pyOrD origin.label (origin.channelName.getD "")
      if ol ≠ "" then "Discord: " ++ ol else "Discord Chat"
    else if strContains session_key ":telegram:" = true ∨ channel = "telegram" then
      let ol := pyOrD origin.label (origin.chatTitle.getD "")
      if ol ≠ "" then "Telegram: " ++ ol else "Telegram Chat"
    else if strContains session_key ":whatsapp:" = true ∨ channel = "whatsapp" then
      let ol := pyOrD origin.label (origin.fromField.getD "")
      if ol ≠ "" then "WhatsApp: " ++ ol else "WhatsApp Chat"
    else if strContains session_key ":slack:" = true ∨ channel = "slack" then
      let ol := pyOrD origin.label (origin.channelName.getD "")
      if ol ≠ "" then "Slack: " ++ ol else "Slack Chat"
    else
      let parts := pySplit session_key ":"
      if parts.length > 2 then strJoin ":" (parts.drop 2) else session_key

/-- One entry returned by `agents_base.iterdir()`: its name, whether it
is a directory, and whether it has a `sessions` child directory. -/
structure AgentDirEntry where
  name : String
  isDir : Bool
  hasSessionsChild : Bool
deriving DecidableEq

/-- The filesystem facts `get_all_agent_sessions_dirs` inspects: whether
the agents root exists, its entries, and whether the default
`SESSIONS_DIR` exists. -/
structure AgentsFS where
  agentsBaseExists : Bool
  entries : List AgentDirEntry
  sessionsDirExists : Bool
deriving DecidableEq

/-- Embedding of `get_all_agent_sessions_dirs` (`server.py` lines
624-652).  `sessionsDirPath` stands for the configured `SESSIONS_DIR`,
`agentsBase` for `OPENCLAW_HOME / 'agents'`. -/
def get_all_agent_sessions_dirs (sessionsDirPath agentsBase : String) (fs : AgentsFS) :
    List (String × String) :=
  if fs.agentsBaseExists = false then [("main", sessionsDirPath)]
  else
    let discovered := fs.entries.filterMap (fun e =>
      if e.isDir && !(strStartsWith e.name ".") && e.hasSessionsChild then
        some (e.name, agentsBase ++ "/" ++ e.name ++ "/sessions")
      else none)
    if discovered.any (fun p => p.1 == "main") then discovered
    else if fs.sessionsDirExists then discovered ++ [("main", sessionsDirPath)]
    else discovered

/-- External dependencies of `transform_sessions`: the cron-name table
from `load_cron_names`, the configured main-agent name, the
`normalize_node_name` heuristic, `socket.gethostname()` and the clock. -/
structure TransformCtx where
  cronNames : List (String × String)
  mainAgentName : String
  normalizeNode : String → String
  gatewayHost : String
  nowMs : Int

/-- Node display pipeline `normalize_node_name(x).lower().replace(' ', '-')`. -/
def nodeDisplay (f : String → String) (raw : String) : String :=
  strReplaceChar (strLower (f raw)) (Char.ofNat 32) (Char.ofNat 45)

/-- One row of the dashboard session list produced by
`transform_sessions`.  `ageMs = none` models the float `inf` default;
`usagePct` is the exact rational, the `round(-, 1)` on IEEE floats being
elided (no claim concerns it).  `sanitize_session` is the identity on
these rows (none of the path or internal keys it strips is ever
produced) and is therefore not modelled separately. -/
structure TransformedSession where
  id : String
  key : String
  label : String
  agentName : Option String
  status : String
  updatedAt : Int
  ageMs : Option Int
  channel : String
  model : String
  totalTokens : Int
  contextTokens : Int
  usagePct : Rat
  node : String
  sizeBytes : Int
  sizeFormatted : String
  task : Option String
deriving DecidableEq

/-- Body of the `for s in raw_sessions` loop of
`DashboardHandler.transform_sessions` (lines 2021-2117), for one record
that was not skipped. -/
def transformOne (ctx : TransformCtx) (s : SessionRecord) : TransformedSession :=
  let key := s.key.getD ""
  let label0 := pyOrD s.label (s.displayName.getD "")
  let keyParts := pySplit key ":"
  let agentIdFromKey : Option String :=
    if 2 ≤ keyParts.length then keyParts[1]? else none
  let agentName0 : Option String := none
  let la : String × Option String :=
    if strContains key ":spawn:" = true ∨ strContains key ":subagent:" = true then
      let storedLabel := s.label.getD ""
      if storedLabel ≠ "" ∧ strStartsWith storedLabel "agent:" = false then
        let an := if agentName0.isNone then
            some (if strContains storedLabel "-" then
              strLower ((pySplit storedLabel "-").headD "") else strLower storedLabel)
          else agentName0
        (storedLabel, an)
      else
        let parts := if strContains key ":spawn:" then pySplit key ":spawn:"
          else pySplit key ":subagent:"
        if 1 < parts.length then
          let spawnLabel := (parts[1]?).getD ""
          let an := if agentName0.isNone then
              some (strLower ((pySplit spawnLabel "-").headD "")) else agentName0
          (spawnLabel, an)
        else (label0, agentName0)
    else if strContains key ":cron:" then
      let cronId := (pySplit ((pySplit key ":cron:").getLastD "") ":").headD ""
      match alookup ctx.cronNames cronId with
      | some n => ("Cron: " ++ n, some "cron")
      | none => ("Cron Job", some "cron")
    else if key = "agent:main:main" then (ctx.mainAgentName ++ " (main)", some "main")
    else if strContains key ":signal:" = true ∨ strContains key ":discord:" = true ∨
        strContains key ":telegram:" = true ∨ strContains key ":whatsapp:" = true ∨
        strContains key ":slack:" = true then
      let an := if agentName0.isNone ∧ agentIdFromKey = some "main" then some "main"
        else agentName0
      (parse_friendly_session_label key s, an)
    else
      (if label0 = "" then parse_friendly_session_label key s else label0, agentName0)
  let status1 := if s.abortedLastRun.getD false then "failed" else "done"
  let status := match s.ageMs with
    | some a => if a < 60000 then "running" else status1
    | none => status1
  let updatedAt := s.updatedAt.getD 0
  let ageMs : Option Int := match s.ageMs with
    | some a => some a
    | none => if updatedAt ≠ 0 then some (ctx.nowMs - updatedAt) else none
  let totalTokens := s.totalTokens.getD 0
  let contextTokens := s.contextTokens.getD 200000
  let usagePct : Rat :=
    if contextTokens ≠ 0 then ((totalTokens : Rat) / (contextTokens : Rat)) * 100 else 0
  let node := match pyOr s.node s.hostname with
    | some n => if n = "" then nodeDisplay ctx.normalizeNode ctx.gatewayHost
      else nodeDisplay ctx.normalizeNode n
    | none => nodeDisplay ctx.normalizeNode ctx.gatewayHost
  { id := pyOrD s.sessionId key
    key := key
    label := la.1
    agentName := la.2
    status := status
    updatedAt := updatedAt
    ageMs := ageMs
    channel := pyOrD s.channel (s.lastChannel.getD "unknown")
    model := s.model.getD "unknown"
    totalTokens := totalTokens
    contextTokens := contextTokens
    usagePct := usagePct
    node := node
    sizeBytes := s.sizeBytes.getD 0
    sizeFormatted := s.sizeFormatted.getD "—"
    task := s.task }

/-- Embedding of `DashboardHandler.transform_sessions` (lines 1997-2119):
records whose key contains `:run:` are skipped (line 2018), all others
are transformed. -/
def transform_sessions (ctx : TransformCtx) (raw : List SessionRecord) :
    List TransformedSession :=
  raw.filterMap (fun s =>
    if strContains (s.key.getD "") ":run:" then none
    else some (transformOne ctx s))

/-- One mutation of the archive state: a single archive or restore call. -/
inductive ArchOp where
  | archiveOp (key : String) (data : SessionRecord) : ArchOp
  | restoreOp (key : String) : ArchOp

/-- Apply one archive/restore operation to the filesystem state. -/
def applyOp (ctx : Ctx) (fs : FS) : ArchOp → FS
  | .archiveOp k d => (archive_session ctx k d fs).1
  | .restoreOp k => (restore_session ctx k fs).1

/-- Apply a sequence of archive/restore operations in order. -/
def applyOps (ctx : Ctx) (ops : List ArchOp) (fs : FS) : FS :=
  ops.foldl (applyOp ctx) fs

/-- Consistency of the archive index: `totalSize` equals the sum of
`compressedSize` over its rows. -/
def goodIndex (idx : ArchiveIndex) : Prop :=
  idx.totalSize = sumCompressed idx.sessions

/-- A concrete context for witnesses: the identity codec (which satisfies
the gzip round-trip law), no task extraction, clock at 86400001 ms. -/
def ctx0 : Ctx :=
  { comp := fun s => s
    decomp := fun s => s
    extractTask := fun _ => none
    now := 86400001 }

/-- Concrete session record whose transcript file is missing. -/
def recC1a : SessionRecord := { sessionId := some "s1", updatedAt := some 0 }

/-- Concrete session record whose transcript file exists. -/
def recC1b : SessionRecord := { sessionId := some "s2", updatedAt := some 0 }

/-- Sweep state with two retention candidates: `k1` (transcript missing,
archival fails) and `k2` (transcript present, archival succeeds). -/
def fsC1 : FS :=
  { files := [("s2.jsonl", "DATA")]
    archiveFiles := []
    catalog := some [("k1", recC1a), ("k2", recC1b)]
    index := { sessions := [], totalSize := 0 } }

/-- The archive-index row the sweep on `fsC1` creates for `k2`. -/
def entryC1 : ArchiveEntry :=
  { key := "k2"
    sessionId := "s2"
    label := "k2"
    archivedAt := 86400001
    originalSize := 4
    compressedSize := 4
    updatedAt := 0
    model := none
    channel := none
    task := none }

/-- The state after the sweep on `fsC1`: `k1` untouched (its archival
failed), `k2` archived. -/
def fsC1out : FS :=
  { files := []
    archiveFiles := [("s2.jsonl.gz", "DATA")]
    catalog := some [("k1", recC1a)]
    index := { sessions := [entryC1], totalSize := 4 } }

/-- An archived session whose catalog key differs from its session id. -/
def entryC2 : ArchiveEntry :=
  { key := "agent:main:x"
    sessionId := "s1"
    label := "L"
    archivedAt := 0
    originalSize := 5
    compressedSize := 5
    updatedAt := 7
    model := none
    channel := none
    task := none }

/-- Archive state holding exactly the session of `entryC2`. -/
def fsC2 : FS :=
  { files := []
    archiveFiles := [("s1.jsonl.gz", "data")]
    catalog := some []
    index := { sessions := [entryC2], totalSize := 5 } }

/-- A record whose transcript is only found through the glob fallback:
the exact file `abc.jsonl` does not exist but `x-abc.jsonl` does. -/
def recC5 : SessionRecord :=
  { sessionId := some "abc", updatedAt := some 5, model := some "m", channel := some "c" }

/-- State for the glob-fallback round-trip counterexample. -/
def fsC5 : FS :=
  { files := [("x-abc.jsonl", "HELLO")]
    archiveFiles := []
    catalog := some [("k", recC5)]
    index := { sessions := [], totalSize := 0 } }

/-- State for the exact-path round-trip witness. -/
def fsC5w : FS :=
  { files := [("s9.jsonl", "HELLO")]
    archiveFiles := []
    catalog := some []
    index := { sessions := [], totalSize := 0 } }

/-- Record for the exact-path round-trip witness. -/
def recC5w : SessionRecord :=
  { sessionId := some "s9", updatedAt := some 3, model := some "m", channel := some "c" }

/-- State with an irrelevant file, for the missing-transcript witness. -/
def fsC4w : FS :=
  { files := [("other.txt", "x")]
    archiveFiles := []
    catalog := some [("kz", { sessionId := some "zz" })]
    index := { sessions := [], totalSize := 0 } }

/-- Agents root that exists, has one agent directory without a `sessions`
child, while the default `SESSIONS_DIR` does not exist. -/
def agentsFsC7 : AgentsFS :=
  { agentsBaseExists := true
    entries := [{ name := "bob", isDir := true, hasSessionsChild := false }]
    sessionsDirExists := false }

/-- Archive state for the restored-row witness. -/
def fsC10w : FS :=
  { files := []
    archiveFiles := [("s1.jsonl.gz", "zz")]
    catalog := some []
    index := { sessions := [entryC2], totalSize := 5 } }

/-- Looking up a key right after inserting it yields the inserted value. -/
theorem alookup_ainsert_self {α : Type} (l : List (String × α)) (k : String) (v : α) :
    alookup (ainsert l k v) k = some v := by
  induction l with
  | nil => simp [ainsert, alookup]
  | cons kv rest ih =>
    obtain ⟨k0, v0⟩ := kv
    by_cases h : k0 = k
    · simp [ainsert, h, alookup]
    · simp [ainsert, h, alookup, ih]

/-- Searching an appended list skips a left part on which the predicate
fails everywhere. -/
theorem find?_append_of_forall_false {α : Type} (p : α → Bool) (l₁ l₂ : List α)
    (h : ∀ x ∈ l₁, p x = false) : List.find? p (l₁ ++ l₂) = List.find? p l₂ := by
  induction l₁ with
  | nil => simp
  | cons a rest ih =>
    rw [List.cons_append, List.find?_cons_of_neg _ (by simp [h a (by simp)])]
    exact ih (fun x hx => h x (by simp [hx]))

/-- The `Path.stem` of `<s>.jsonl` is `s`. -/
theorem strDropRight_append_jsonl (s : String) : strDropRight (s ++ ".jsonl") 6 = s := by
  obtain ⟨l⟩ := s
  simp [strDropRight, String.data_append]

/-- When the exact transcript file exists, `findTranscript` returns it. -/
theorem findTranscript_exact (sid : String) (files : List (String × String)) (c : String)
    (h : alookup files (sid ++ ".jsonl") = some c) :
    findTranscript sid files = some (sid ++ ".jsonl") := by
  unfold findTranscript
  rw [h]
  simp

/-- An archive call preserves index consistency: it either leaves the
index untouched or rewrites `totalSize` as the recomputed sum. -/
theorem goodIndex_archive (ctx : Ctx) (k : String) (d : SessionRecord) (fs : FS)
    (h : goodIndex fs.index) : goodIndex (archive_session ctx k d fs).1.index := by
  unfold archive_session
  cases hft : findTranscript (d.sessionId.getD k) fs.files with
  | none => exact h
  | some n => simp [goodIndex]

/-- A restore call preserves index consistency the same way. -/
theorem goodIndex_restore (ctx : Ctx) (k : String) (fs : FS)
    (h : goodIndex fs.index) : goodIndex (restore_session ctx k fs).1.index := by
  unfold restore_session
  cases hf : fs.index.sessions.find? (fun s => s.key == k || s.sessionId == k) with
  | none => exact h
  | some info =>
    dsimp only
    cases hz : alookup fs.archiveFiles (info.sessionId ++ ".jsonl.gz") with
    | none => exact h
    | some z => simp [goodIndex]

/-- Any single archive/restore operation preserves index consistency. -/
theorem goodIndex_applyOp (ctx : Ctx) (fs : FS) (op : ArchOp)
    (h : goodIndex fs.index) : goodIndex (applyOp ctx fs op).index := by
  cases op with
  | archiveOp k d => exact goodIndex_archive ctx k d fs h
  | restoreOp k => exact goodIndex_restore ctx k fs h

/-- C1: at a failing input the retention sweep continues past the failed
candidate `k1` and archives `k2` (the final state `fsC1out` shows `k2`
moved to the archive), yet reports `archived = 2` although
`archive_session` failed on `k1` — the code counts the truthiness of the
`(success, error)` tuple, so failed archivals are counted, contradicting
the claim that the aggregate equals the number of successes. -/
theorem C1_sweep_count_includes_failed_archival :
    handle_run_archive ctx0 (Retention.days 1) fsC1 = (fsC1out, 2) ∧
    (archive_session ctx0 "k1" recC1a fsC1).2.1 = false := by decide

/-- C2: restoring by the sessionId `s1` of an archived session whose
catalog key is `agent:main:x` succeeds and deletes the compressed
artifact, but the session's entry stays in the Archive Index — the
removal filter compares entry keys against the passed identifier, so the
claim that the entry is removed (and `totalSize` recomputed without it)
fails on the sessionId lookup path that `restore_session` itself
supports. -/
theorem C2_restore_by_sessionId_leaves_index_entry :
    (restore_session ctx0 "s1" fsC2).2 = true ∧
    (restore_session ctx0 "s1" fsC2).1.index.sessions = [entryC2] ∧
    alookup (restore_session ctx0 "s1" fsC2).1.archiveFiles "s1.jsonl.gz" = none := by decide

/-- C3: starting from a consistent index, any sequence of archive and
restore operations keeps `totalSize` equal to the sum of
`compressedSize` over the index rows — every mutation recomputes the
total from the entries before persisting. -/
theorem C3_totalSize_equals_sum_compressedSize (ctx : Ctx) (ops : List ArchOp) (fs : FS)
    (h : goodIndex fs.index) : goodIndex (applyOps ctx ops fs).index := by
  induction ops generalizing fs with
  | nil => simpa [applyOps] using h
  | cons op rest ih =>
    simp only [applyOps, List.foldl_cons]
    exact ih (applyOp ctx fs op) (goodIndex_applyOp ctx fs op h)

/-- Witness for C3: an archive followed by a restore from a concrete
consistent state keeps the index consistent. -/
theorem C3_totalSize_equals_sum_compressedSize_witness :
    goodIndex (applyOps ctx0 [ArchOp.archiveOp "k" recC5, ArchOp.restoreOp "k"] fsC5).index :=
  C3_totalSize_equals_sum_compressedSize ctx0
    [ArchOp.archiveOp "k" recC5, ArchOp.restoreOp "k"] fsC5 rfl

/-- C4: when neither the exact `<sessionId>.jsonl` file nor any
`*<sessionId>*.jsonl` glob match exists, `archive_session` returns the
transcript-not-found failure and the whole state — catalog, index and
files — is returned unchanged. -/
theorem C4_archive_missing_transcript_no_mutation (ctx : Ctx) (key : String)
    (data : SessionRecord) (fs : FS)
    (hexact : alookup fs.files (data.sessionId.getD key ++ ".jsonl") = none)
    (hglob : ∀ n ∈ fs.files.map Prod.fst, globMatch (data.sessionId.getD key) n = false) :
    archive_session ctx key data fs =
      (fs, false,
        some ("Transcript file not found: " ++ data.sessionId.getD key ++ ".jsonl")) := by
  have hft : findTranscript (data.sessionId.getD key) fs.files = none := by
    unfold findTranscript
    rw [hexact]
    simp only [Option.isSome_none, Bool.false_eq_true, if_false]
    rw [List.filter_eq_nil_iff.mpr (fun n hn => by simp [hglob n hn])]
    rfl
  unfold archive_session
  rw [hft]

/-- Witness for C4: archiving a session with id `zz` in a directory
holding only `other.txt` fails without mutating anything. -/
theorem C4_archive_missing_transcript_no_mutation_witness :
    archive_session ctx0 "kz" { sessionId := some "zz" } fsC4w =
      (fsC4w, false,
        some ("Transcript file not found: " ++
          (({ sessionId := some "zz" } : SessionRecord).sessionId.getD "kz") ++ ".jsonl")) :=
  C4_archive_missing_transcript_no_mutation ctx0 "kz" { sessionId := some "zz" } fsC4w
    (by decide) (by decide)

/-- C5 counterexample: for the record `recC5` (sessionId `abc`) whose
transcript lives at `x-abc.jsonl`, archiving succeeds through the glob
fallback, but the immediate restore fails outright — the artifact was
written as `x-abc.jsonl.gz` while restore looks for `abc.jsonl.gz` — so
the round-trip claim is false as a universal statement. -/
theorem C5_roundtrip_fails_on_glob_fallback :
    (archive_session ctx0 "k" recC5 fsC5).2.1 = true ∧
    (restore_session ctx0 "k" (archive_session ctx0 "k" recC5 fsC5).1).2 = false := by decide

/-- C5 amended: when the transcript exists at the exact
`<sessionId>.jsonl` path, `sessionId` and `updatedAt` are present, and
no prior index row collides with the key, restoring right after
archiving re-inserts a catalog row with identical `sessionId`, `model`
and `updatedAt`, with `channel` equal to the Python
`channel or lastChannel` of the original, and the transcript file holds
the original bytes again (given the gzip round-trip law). -/
theorem C5_roundtrip_exact_transcript (ctx : Ctx) (key sid content : String) (u : Int)
    (rec : SessionRecord) (fs : FS)
    (hinv : ∀ s, ctx.decomp (ctx.comp s) = s)
    (hsid : rec.sessionId = some sid)
    (hu : rec.updatedAt = some u)
    (hfile : alookup fs.files (sid ++ ".jsonl") = some content)
    (hfresh : ∀ e ∈ fs.index.sessions, e.key ≠ key ∧ e.sessionId ≠ key) :
    (restore_session ctx key (archive_session ctx key rec fs).1).2 = true ∧
    ∃ cat rr,
      (restore_session ctx key (archive_session ctx key rec fs).1).1.catalog = some cat ∧
      alookup cat key = some rr ∧
      rr.sessionId = rec.sessionId ∧
      rr.model = rec.model ∧
      rr.updatedAt = rec.updatedAt ∧
      rr.channel = pyOr rec.channel rec.lastChannel ∧
      alookup (restore_session ctx key (archive_session ctx key rec fs).1).1.files
        (sid ++ ".jsonl") = some content := by
  have hft := findTranscript_exact sid fs.files content hfile
  unfold archive_session
  rw [hsid]
  simp only [Option.getD_some]
  rw [hft]
  dsimp only
  rw [hfile]
  simp only [Option.getD_some]
  rw [strDropRight_append_jsonl]
  unfold restore_session
  dsimp only
  rw [find?_append_of_forall_false _ fs.index.sessions _
    (fun x hx => by simp [beq_eq_false_iff_ne, (hfresh x hx).1, (hfresh x hx).2])]
  rw [List.find?_cons_of_pos _ (by simp)]
  dsimp only
  rw [alookup_ainsert_self]
  refine ⟨rfl, _, _, rfl, alookup_ainsert_self _ _ _, by simp [hsid], rfl, by simp [hu],
    rfl, ?_⟩
  rw [alookup_ainsert_self, hinv]

/-- Witness for the amended C5: a concrete exact-path round trip. -/
theorem C5_roundtrip_exact_transcript_witness :
    (restore_session ctx0 "k9" (archive_session ctx0 "k9" recC5w fsC5w).1).2 = true ∧
    ∃ cat rr,
      (restore_session ctx0 "k9" (archive_session ctx0 "k9" recC5w fsC5w).1).1.catalog =
        some cat ∧
      alookup cat "k9" = some rr ∧
      rr.sessionId = recC5w.sessionId ∧
      rr.model = recC5w.model ∧
      rr.updatedAt = recC5w.updatedAt ∧
      rr.channel = pyOr recC5w.channel recC5w.lastChannel ∧
      alookup (restore_session ctx0 "k9" (archive_session ctx0 "k9" recC5w fsC5w).1).1.files
        ("s9" ++ ".jsonl") = some "HELLO" :=
  C5_roundtrip_exact_transcript ctx0 "k9" "s9" "HELLO" 3 recC5w fsC5w (fun _ => rfl) rfl rfl
    (by decide) (by simp [fsC5w])

/-- C6: for positive `d`, a session one day older than the cutoff is
selected, one a day younger is not, and one exactly at the cutoff is not
selected — the comparison is a strict less-than. -/
theorem C6_retention_cutoff_boundary (d now : Int) (_hd : 0 < d) :
    selectExpired now d { updatedAt := some (now - (d + 1) * 86400000) } = true ∧
    selectExpired now d { updatedAt := some (now - (d - 1) * 86400000) } = false ∧
    selectExpired now d { updatedAt := some (now - d * 86400000) } = false := by
  simp only [selectExpired, Option.getD_some, decide_eq_true_eq, decide_eq_false_iff_not,
    not_lt]
  refine ⟨by nlinarith, by nlinarith, by nlinarith⟩

/-- Witness for C6 at `d = 1`, `now = 0`. -/
theorem C6_retention_cutoff_boundary_witness :
    selectExpired 0 1 { updatedAt := some (0 - (1 + 1) * 86400000) } = true ∧
    selectExpired 0 1 { updatedAt := some (0 - (1 - 1) * 86400000) } = false ∧
    selectExpired 0 1 { updatedAt := some (0 - 1 * 86400000) } = false :=
  C6_retention_cutoff_boundary 1 0 (by decide)

/-- C7 counterexample: when the agents root exists, contains only an
agent directory without a `sessions` child, and the default
`SESSIONS_DIR` does not exist, the result is empty — `main` is not
appended (the append is guarded by `SESSIONS_DIR.exists()`), so callers
can receive an empty list. -/
theorem C7_main_absent_when_sessions_dir_missing :
    get_all_agent_sessions_dirs "agents/main/sessions" "agents" agentsFsC7 = [] := by decide

/-- C7 amended: `main` is present whenever the agents root does not
exist, or the default sessions directory exists, or a non-hidden agent
directory named `main` with a `sessions` child is discovered. -/
theorem C7_main_present_conditions (sp ab : String) (fs : AgentsFS)
    (h : fs.agentsBaseExists = false ∨ fs.sessionsDirExists = true ∨
      ∃ e ∈ fs.entries, e.name = "main" ∧ e.isDir = true ∧ e.hasSessionsChild = true) :
    "main" ∈ (get_all_agent_sessions_dirs sp ab fs).map Prod.fst := by
  unfold get_all_agent_sessions_dirs
  by_cases hb : fs.agentsBaseExists = false
  · simp [hb]
  · rw [if_neg hb]
    have keyOfAny :
        ∀ _hany : (fs.entries.filterMap (fun e =>
            if e.isDir && !(strStartsWith e.name ".") && e.hasSessionsChild then
              some (e.name, ab ++ "/" ++ e.name ++ "/sessions")
            else none)).any (fun p => p.1 == "main") = true,
          "main" ∈ (fs.entries.filterMap (fun e =>
            if e.isDir && !(strStartsWith e.name ".") && e.hasSessionsChild then
              some (e.name, ab ++ "/" ++ e.name ++ "/sessions")
            else none)).map Prod.fst := by
      intro hany
      obtain ⟨p, hp, hpe⟩ := List.any_eq_true.mp hany
      exact List.mem_map.mpr ⟨p, hp, by simpa using hpe⟩
    rcases h with h | h | ⟨e, he, hn, hd, hs⟩
    · exact absurd h hb
    · by_cases hany : (fs.entries.filterMap (fun e =>
          if e.isDir && !(strStartsWith e.name ".") && e.hasSessionsChild then
            some (e.name, ab ++ "/" ++ e.name ++ "/sessions")
          else none)).any (fun p => p.1 == "main") = true
      · rw [if_pos hany]
        exact keyOfAny hany
      · rw [if_neg hany, if_pos h]
        simp
    · have hmem : ("main", ab ++ "/" ++ "main" ++ "/sessions") ∈
          fs.entries.filterMap (fun e =>
            if e.isDir && !(strStartsWith e.name ".") && e.hasSessionsChild then
              some (e.name, ab ++ "/" ++ e.name ++ "/sessions")
            else none) := by
        refine List.mem_filterMap.mpr ⟨e, he, ?_⟩
        rw [hd, hs, hn]
        simp [strStartsWith]
      have hany : (fs.entries.filterMap (fun e =>
          if e.isDir && !(strStartsWith e.name ".") && e.hasSessionsChild then
            some (e.name, ab ++ "/" ++ e.name ++ "/sessions")
          else none)).any (fun p => p.1 == "main") = true :=
        List.any_eq_true.mpr ⟨_, hmem, by simp⟩
      rw [if_pos hany]
      exact keyOfAny hany

/-- Witness for the amended C7: a missing agents root falls back to the
single default `main` directory. -/
theorem C7_main_present_conditions_witness :
    "main" ∈ (get_all_agent_sessions_dirs "agents/main/sessions" "agents"
      { agentsBaseExists := false, entries := [], sessionsDirExists := false }).map Prod.fst :=
  C7_main_present_conditions "agents/main/sessions" "agents"
    { agentsBaseExists := false, entries := [], sessionsDirExists := false } (Or.inl rfl)

/-- C8 counterexample: the key from the claim with no stored label (and
no origin metadata either) resolves to `Signal DM`, not to
`Signal: +1 234 567 890` — the DM branch formats only the origin label
and never parses the key tail. -/
theorem C8_label_is_signal_dm_not_formatted_number :
    parse_friendly_session_label "agent:main:signal:dm:signal:+12345678901" {} = "Signal DM" ∧
    "Signal DM" ≠ "Signal: +1 234 567 890" := by decide

/-- C8 amended: with no stored label and no origin metadata the label is
`Signal DM`; when the origin label is `signal:+12345678901` the 11-digit
rule yields `Signal: +1 234 567 8901` (digit groups 234 567 8901). -/
theorem C8_label_resolution_actual_behaviour :
    parse_friendly_session_label "agent:main:signal:dm:signal:+12345678901" {} = "Signal DM" ∧
    parse_friendly_session_label "agent:main:signal:dm:signal:+12345678901"
      { origin := some { label := some "signal:+12345678901" } } = "Signal: +1 234 567 8901" := by
  decide

/-- C9: sessions whose key contains `:run:` contribute nothing to the
transformed list — filtering them out of the input leaves the output of
`transform_sessions` unchanged, whatever their other attributes. -/
theorem C9_run_sessions_omitted (ctx : TransformCtx) (raw : List SessionRecord) :
    transform_sessions ctx raw =
      transform_sessions ctx (raw.filter (fun s => !(strContains (s.key.getD "") ":run:"))) := by
  induction raw with
  | nil => rfl
  | cons s rest ih =>
    simp only [transform_sessions] at ih ⊢
    by_cases h : strContains (s.key.getD "") ":run:" = true
    · simpa [List.filterMap_cons, List.filter_cons, h] using ih
    · simpa [List.filterMap_cons, List.filter_cons, h] using ih

/-- C10: a successful restore re-inserts a catalog row that carries
exactly `sessionId`, `label`, `updatedAt`, `model`, `channel` and
`restoredAt`; equality with the record literal forces every other field
(`totalTokens`, `contextTokens`, `node`, `hostname`, `origin`,
`displayName`, ...) to be absent (`none`). -/
theorem C10_restored_row_exact_fields (ctx : Ctx) (k : String) (fs : FS) (e : ArchiveEntry)
    (z : String)
    (hfind : fs.index.sessions.find? (fun s => s.key == k || s.sessionId == k) = some e)
    (hz : alookup fs.archiveFiles (e.sessionId ++ ".jsonl.gz") = some z) :
    (restore_session ctx k fs).2 = true ∧
    ∃ cat, (restore_session ctx k fs).1.catalog = some cat ∧
      alookup cat e.key = some
        { sessionId := some e.sessionId
          label := some e.label
          updatedAt := some e.updatedAt
          model := e.model
          channel := e.channel
          restoredAt := some ctx.now } := by
  unfold restore_session
  rw [hfind]
  dsimp only
  rw [hz]
  exact ⟨rfl, _, rfl, alookup_ainsert_self _ _ _⟩

/-- Witness for C10: restoring the concrete archived session of
`entryC2` by its key. -/
theorem C10_restored_row_exact_fields_witness :
    (restore_session ctx0 "agent:main:x" fsC10w).2 = true ∧
    ∃ cat, (restore_session ctx0 "agent:main:x" fsC10w).1.catalog = some cat ∧
      alookup cat entryC2.key = some
        { sessionId := some entryC2.sessionId
          label := some entryC2.label
          updatedAt := some entryC2.updatedAt
          model := entryC2.model
          channel := entryC2.channel
          restoredAt := some ctx0.now } :=
  C10_restored_row_exact_fields ctx0 "agent:main:x" fsC10w entryC2 "zz" (by decide) (by decide)
